import Mathlib

/-!
Shallow embedding of the grpc connection pool (package `pool`,
files `options.go` and `pool_grpc.go`).

Modelling conventions:
* `time.Time` and `time.Duration` are both modelled as `Int`
  (nanoseconds, as in Go's `int64` representation).
* Go integer division truncates toward zero, so `Duration.Milliseconds`
  uses `Int.tdiv`.
* A `*grpc.ClientConn` is an opaque handle, modelled as `Nat`; a nil
  pointer is `Option.none`.
* The collaborator callbacks are parameters of each operation:
  `cr : Nat → Option Err` gives the result of closing a given handle
  (`none` = nil error, `some e` = close failed with `e`); dial results
  are likewise passed in.
* A Go runtime panic (nil function call, `rand.Int63n` with a
  non-positive bound) is modelled as the `none` / `panic` constructor of
  the operation's result.
* Channels: the bounded conn channel is a `List` (front = next receive)
  together with its capacity; a nil channel is `none`.  The target
  update channel `input` is `none` when nil, `some ms` when it is an
  initialized channel whose lifetime delivery sequence is `ms`.
-/

/-- Error values of `options.go` lines 10-15, plus `collabErr` for
opaque collaborator (dial/close) errors passed through unchanged. -/
inductive Err where
  | errClosed
  | errInvalid
  | errRejected
  | errTargets
  | collabErr (code : Nat)
deriving DecidableEq

/-- `IdleTimeoutType TimeoutType = iota + 1` (options.go line 20). -/
def IdleTimeoutType : Int := 1

/-- `FixedTimeoutType` (options.go line 21). -/
def FixedTimeoutType : Int := 2

/-- `time.Duration.Milliseconds()` returns `d / 1e6` with Go's
truncated division; a Go `time.Duration` is an `int64` count of
nanoseconds, modelled as a plain `Int`. -/
def Duration.Milliseconds (d : Int) : Int := Int.tdiv d 1000000

/-- Model of `rand.Int63n n`: panics (`none`) when `n ≤ 0`, otherwise
returns a value in `[0, n)`; the pseudo-random source is abstracted by
`seed`, and as `seed` ranges over `Nat` the results range over exactly
`[0, n)`. -/
def randInt63n (seed : Nat) (n : Int) : Option Int :=
  if n ≤ 0 then none else some ((seed : Int) % n)

/-- `Options` (options.go lines 29-41).  `initTargets = none` models a
nil `[]string`; `input = none` models a nil channel (no code in the
repository ever initializes `input`), `input = some ms` an initialized
channel delivering the messages `ms` over its lifetime. -/
structure Options where
  initTargets : Option (List String)
  initCap : Int
  maxCap : Int
  timeoutType : Int
  dialTimeout : Int
  idleTimeout : Int
  readTimeout : Int
  writeTimeout : Int
  input : Option (List (Option (List String)))
deriving DecidableEq

/-- `Options.Input` (options.go lines 44-46): returns the `input`
channel as is. -/
def Options.Input (o : Options) : Option (List (Option (List String))) :=
  o.input

/-- The messages the background listener of `Options.update`
(options.go lines 53-63) ever receives: a nil channel (`none`) blocks
the `range` forever, so nothing is received from it. -/
def Options.receivedUpdates (o : Options) : List (Option (List String)) :=
  o.input.getD []

/-- One iteration of the listener loop body (options.go lines 54-62):
a nil message is skipped, otherwise the whole target slice is
replaced. -/
def applyUpdate (cur : List String) (m : Option (List String)) : List String :=
  match m with
  | none => cur
  | some t => t

/-- The target slice after `Options.update` initialized it to
`InitTargets` (options.go line 51) and the listener applied every
delivered message in order. -/
def Options.currentTargets (o : Options) : List String :=
  (Options.receivedUpdates o).foldl applyUpdate (o.initTargets.getD [])

/-- A producer-side send `o.Input() <- m`: on a nil channel the send
blocks forever (no resulting state, `none`); on an initialized channel
the message is appended to the delivery sequence. -/
def Options.sendInput (o : Options) (m : Option (List String)) : Option Options :=
  o.input.map fun ms => { o with input := some (ms ++ [m]) }

/-- `NewOptions` (options.go lines 68-78): starts from the zero value
`&Options{}` (so `InitTargets` stays nil and `input` stays a nil
channel) and sets the listed defaults. -/
def NewOptions : Options :=
  { initTargets := none
    initCap := 5
    maxCap := 100
    timeoutType := IdleTimeoutType
    dialTimeout := 5 * 1000000000
    readTimeout := 5 * 1000000000
    writeTimeout := 5 * 1000000000
    idleTimeout := 60 * 1000000000
    input := none }

/-- `Options.validate` (options.go lines 81-93), translated clause by
clause: note it tests `InitTargets == nil` (not emptiness) and each
timeout `== 0` (not non-positivity). -/
def Options.validate (o : Options) : Option Err :=
  if o.initTargets = none ∨
      o.initCap ≤ 0 ∨
      o.maxCap ≤ 0 ∨
      o.initCap > o.maxCap ∨
      ¬(o.timeoutType = IdleTimeoutType ∨ o.timeoutType = FixedTimeoutType) ∨
      o.dialTimeout = 0 ∨
      o.readTimeout = 0 ∨
      o.writeTimeout = 0 then
    some Err.errInvalid
  else
    none

/-- `Options.nextTarget` (options.go lines 96-107) on a given target
slice, with the random draw `r` standing for `rand.Int()`. -/
def nextTarget (targets : List String) (r : Nat) : String :=
  if targets.length ≤ 0 then "" else targets.getD (r % targets.length) ""

/-- `GrpcIdleConn` (pool_grpc.go lines 22-25): connection handle plus
timestamp; `conn = none` models a nil `*grpc.ClientConn`. -/
structure GrpcIdleConn where
  conn : Option Nat
  t : Int
deriving DecidableEq

/-- `GRPCPool` (pool_grpc.go lines 13-20).  `conns = none` models the
nil channel after `Close`; `maxCap` is the channel's capacity fixed by
`make(chan *GrpcIdleConn, o.MaxCap)`.  `factoryAttached` and
`closeAttached` record whether the `factory` and `close` function
fields are non-nil (both are set at construction and cleared by
`Close`); the functions themselves are supplied as parameters of each
operation. -/
structure GRPCPool where
  idleTimeout : Int
  timeoutType : Int
  maxCap : Nat
  conns : Option (List GrpcIdleConn)
  factoryAttached : Bool
  closeAttached : Bool
deriving DecidableEq

/-- `GRPCPool.createGrpcIdleConn` (pool_grpc.go lines 60-68): under
`FixedTimeoutType` the creation time is moved backward by
`time.Millisecond * rand.Int63n(IdleTimeout.Milliseconds()/2)`;
`none` models the `rand.Int63n` panic when the bound is `≤ 0`. -/
def createGrpcIdleConn (timeoutType : Int) (idleTimeout : Int)
    (now : Int) (seed : Nat) (cid : Nat) : Option GrpcIdleConn :=
  if timeoutType = FixedTimeoutType then
    match randInt63n seed (Int.tdiv (Duration.Milliseconds idleTimeout) 2) with
    | none => none
    | some r => some { conn := some cid, t := now - 1000000 * r }
  else
    some { conn := some cid, t := now }

/-- Outcome of `GRPCPool.Get`. -/
inductive GetOutcome where
  | panic
  | err (e : Err)
  | ok (w : GrpcIdleConn)
deriving DecidableEq

/-- The `for { select ... } }` loop of `GRPCPool.Get` (pool_grpc.go
lines 36-58) on the buffered channel's contents: dequeues entries,
discarding (and closing, recorded with the close result) an entry
whose age exceeds a positive `idleTimeout`; on an empty buffer the
`default` branch dials via the factory (result `fr`) and wraps the new
connection.  Returns (outcome, remaining buffer, eviction closes). -/
def getLoop (idleTimeout : Int) (timeoutType : Int)
    (closeAttached : Bool) (cr : Nat → Option Err) (now : Int)
    (fr : Except Err Nat) (seed : Nat) :
    List GrpcIdleConn → GetOutcome × List GrpcIdleConn × List (Nat × Option Err)
  | [] =>
    match fr with
    | .error e => (.err e, [], [])
    | .ok cid =>
      match createGrpcIdleConn timeoutType idleTimeout now seed cid with
      | none => (.panic, [], [])
      | some w => (.ok w, [], [])
  | w :: rest =>
    match w.conn with
    | none => (.err .errClosed, rest, [])
    | some cid =>
      if 0 < idleTimeout ∧ w.t + idleTimeout < now then
        if closeAttached then
          match getLoop idleTimeout timeoutType closeAttached cr now fr seed rest with
          | (o, q, ev) => (o, q, (cid, cr cid) :: ev)
        else (.panic, rest, [])
      else (.ok w, rest, [])

/-- `GRPCPool.Get` (pool_grpc.go lines 28-59): snapshot the channel
under the mutex; a nil channel fails with `errClosed`; otherwise run
the dequeue loop. -/
def GRPCPool.Get (p : GRPCPool) (cr : Nat → Option Err) (now : Int)
    (fr : Except Err Nat) (seed : Nat) :
    GetOutcome × GRPCPool × List (Nat × Option Err) :=
  match p.conns with
  | none => (.err .errClosed, p, [])
  | some q =>
    match getLoop p.idleTimeout p.timeoutType p.closeAttached cr now fr seed q with
    | (o, q2, ev) => (o, { p with conns := some q2 }, ev)

/-- Result of `GRPCPool.Put`: `res = none` is a runtime panic,
`res = some e?` is the returned Go error (`none` = nil). -/
structure PutResult where
  res : Option (Option Err)
  pool : GRPCPool
  closed : List (Nat × Option Err)
deriving DecidableEq

/-- `GRPCPool.Put` (pool_grpc.go lines 71-96): reject a nil wrapper or
nil inner connection; on a nil (closed) channel return `c.close(conn)`
— a nil-function panic when `Close` already detached the callback;
refresh the timestamp under `IdleTimeoutType`; then non-blocking send:
enqueue if the buffer is below capacity, otherwise return the result
of closing the connection. -/
def GRPCPool.Put (p : GRPCPool) (cr : Nat → Option Err) (now : Int)
    (w : Option GrpcIdleConn) : PutResult :=
  match w with
  | none => ⟨some (some .errRejected), p, []⟩
  | some conn =>
    match conn.conn with
    | none => ⟨some (some .errRejected), p, []⟩
    | some cid =>
      match p.conns with
      | none =>
        if p.closeAttached then ⟨some (cr cid), p, [(cid, cr cid)]⟩
        else ⟨none, p, []⟩
      | some q =>
        let conn2 := if p.timeoutType = IdleTimeoutType then { conn with t := now } else conn
        if q.length < p.maxCap then
          ⟨some none, { p with conns := some (q ++ [conn2]) }, []⟩
        else if p.closeAttached then ⟨some (cr cid), p, [(cid, cr cid)]⟩
        else ⟨none, p, []⟩

/-- `GRPCPool.Close` (pool_grpc.go lines 99-116): under the mutex nil
out the channel and both callbacks (capturing them first); if the
channel was already nil return, otherwise drain it, closing every
remaining entry with the captured callback.  (Entries in the buffer
always carry a non-nil handle: `Put` rejects nil handles and creation
always sets one.) -/
def GRPCPool.Close (p : GRPCPool) (cr : Nat → Option Err) :
    GRPCPool × List (Nat × Option Err) :=
  let p2 : GRPCPool :=
    { p with conns := none, factoryAttached := false, closeAttached := false }
  match p.conns with
  | none => (p2, [])
  | some q => (p2, q.filterMap fun w => w.conn.map fun cid => (cid, cr cid))

/-- `GRPCPool.IdleCount` (pool_grpc.go lines 119-124): `len` of the
channel snapshot (`len(nil chan) = 0`). -/
def GRPCPool.IdleCount (p : GRPCPool) : Nat :=
  match p.conns with
  | none => 0
  | some q => q.length

/-- The `for i := 0; i < o.InitCap; i++` loop of `NewGRPCPool`
(pool_grpc.go lines 155-162), abstracted over the per-iteration
factory result `fac i` and wrapper creation `mk i cid` (None = the
`createGrpcIdleConn` panic).  On a factory error the loop calls
`pool.Close()`, which closes every entry accumulated so far, and
propagates the error. -/
def initLoop (fac : Nat → Except Err Nat) (mk : Nat → Nat → Option GrpcIdleConn)
    (cr : Nat → Option Err) :
    Nat → Nat → List GrpcIdleConn →
    Option (Except Err (List GrpcIdleConn) × List (Nat × Option Err))
  | _, 0, acc => some (.ok acc, [])
  | i, fuel + 1, acc =>
    match fac i with
    | .error e =>
      some (.error e, acc.filterMap fun w => w.conn.map fun cid => (cid, cr cid))
    | .ok cid =>
      match mk i cid with
      | none => none
      | some w => initLoop fac mk cr (i + 1) fuel (acc ++ [w])

/-- The factory closure built in `NewGRPCPool` (pool_grpc.go lines
135-145): pick a target (with random draw `ri`) from the targets the
pool was constructed with; an empty pick fails with `errTargets`,
otherwise the dial result (`dial i target`) is returned. -/
def factoryStep (targets : List String) (dial : Nat → String → Except Err Nat)
    (randIdxs : Nat → Nat) (i : Nat) : Except Err Nat :=
  let target := nextTarget targets (randIdxs i)
  if target = "" then .error .errTargets else dial i target

/-- `NewGRPCPool` (pool_grpc.go lines 127-165): validate, build the
pool with a channel of capacity `MaxCap`, start the target listener
(`o.update()`, which initializes targets to `InitTargets`), then
synchronously create `InitCap` connections, aborting (closing the ones
already made) on the first factory error.  The overall `none` models a
runtime panic inside `createGrpcIdleConn`.  `dial i t` is the result
of the i-th `grpc.DialContext` against target `t`, `randIdxs i` the
i-th `rand.Int()` draw, `seeds i` the i-th jitter seed. -/
def NewGRPCPool (o : Options) (dial : Nat → String → Except Err Nat)
    (randIdxs : Nat → Nat) (seeds : Nat → Nat) (now : Int)
    (cr : Nat → Option Err) :
    Option (Except Err GRPCPool × List (Nat × Option Err)) :=
  match Options.validate o with
  | some e => some (.error e, [])
  | none =>
    let targets := o.initTargets.getD []
    let fac := factoryStep targets dial randIdxs
    let mk := fun i cid => createGrpcIdleConn o.timeoutType o.idleTimeout now (seeds i) cid
    match initLoop fac mk cr 0 o.initCap.toNat [] with
    | none => none
    | some (.error e, closed) => some (.error e, closed)
    | some (.ok ws, _) =>
      some (.ok { idleTimeout := o.idleTimeout
                  timeoutType := o.timeoutType
                  maxCap := o.maxCap.toNat
                  conns := some ws
                  factoryAttached := true
                  closeAttached := true }, [])

/-- One pool operation together with its collaborator inputs, for
stating invariants over arbitrary operation sequences. -/
inductive PoolOp where
  | get (cr : Nat → Option Err) (now : Int) (fr : Except Err Nat) (seed : Nat)
  | put (cr : Nat → Option Err) (now : Int) (w : Option GrpcIdleConn)
  | close (cr : Nat → Option Err)
  | idleCount

/-- State transition of one operation (the pool component of each
operation's result). -/
def applyOp (p : GRPCPool) : PoolOp → GRPCPool
  | .get cr now fr seed => (p.Get cr now fr seed).2.1
  | .put cr now w => (p.Put cr now w).pool
  | .close cr => (p.Close cr).1
  | .idleCount => p

/-- Run a sequence of operations. -/
def applyOps (p : GRPCPool) (ops : List PoolOp) : GRPCPool :=
  ops.foldl applyOp p

/-! ### Shared concrete collaborator callbacks for the concrete runs -/

/-- Close callback that always succeeds (returns a nil error). -/
def crOkFn : Nat → Option Err := fun _ => none

/-- Close callback that always fails with an opaque collaborator error. -/
def crFailFn : Nat → Option Err := fun _ => some (Err.collabErr 9)

/-- Dial that hands out the iteration index as the connection handle. -/
def dialOkFn : Nat → String → Except Err Nat := fun i _ => .ok i

/-- C1: after `Close`, `Get` fails with `errClosed` and a second
`Close` is a safe no-op, but `Put` of a non-nil connection calls the
nil `close` callback (detached by `Close`) and panics instead of
closing the connection and returning success. -/
theorem C1_after_close_put_panics :
    (GRPCPool.Close
        { idleTimeout := 60000000000, timeoutType := IdleTimeoutType, maxCap := 2,
          conns := some [{ conn := some 1, t := 0 }],
          factoryAttached := true, closeAttached := true } crOkFn).2
      = [(1, none)] ∧
    ((GRPCPool.Close
        { idleTimeout := 60000000000, timeoutType := IdleTimeoutType, maxCap := 2,
          conns := some [{ conn := some 1, t := 0 }],
          factoryAttached := true, closeAttached := true } crOkFn).1.Get
        crOkFn 5 (.ok 9) 0).1 = .err .errClosed ∧
    ((GRPCPool.Close
        { idleTimeout := 60000000000, timeoutType := IdleTimeoutType, maxCap := 2,
          conns := some [{ conn := some 1, t := 0 }],
          factoryAttached := true, closeAttached := true } crOkFn).1.Put
        crOkFn 5 (some { conn := some 7, t := 3 })).res = none ∧
    ((GRPCPool.Close
        { idleTimeout := 60000000000, timeoutType := IdleTimeoutType, maxCap := 2,
          conns := some [{ conn := some 1, t := 0 }],
          factoryAttached := true, closeAttached := true } crOkFn).1.Close crOkFn)
      = ((GRPCPool.Close
        { idleTimeout := 60000000000, timeoutType := IdleTimeoutType, maxCap := 2,
          conns := some [{ conn := some 1, t := 0 }],
          factoryAttached := true, closeAttached := true } crOkFn).1, []) := by
  refine ⟨rfl, rfl, rfl, rfl⟩

/-- C2: no code in the repository ever initializes `Options.input`
(`NewOptions` starts from the zero value, and the README example
builds `&pool.Options{...}` directly), so `Input()` exposes a nil
channel: a send on it blocks forever and can never be delivered, and
the targets stay the initial list regardless of what a producer tries
to send.  The listener logic itself would apply a delivered
replacement and skip a nil one, as the last two conjuncts show for a
hypothetically initialized channel. -/
theorem C2_input_channel_never_initialized :
    NewOptions.input = none ∧
    Options.Input
      { initTargets := some ["A"], initCap := 1, maxCap := 1,
        timeoutType := IdleTimeoutType, dialTimeout := 5000000000,
        idleTimeout := 60000000000, readTimeout := 5000000000,
        writeTimeout := 5000000000, input := none } = none ∧
    Options.sendInput
      { initTargets := some ["A"], initCap := 1, maxCap := 1,
        timeoutType := IdleTimeoutType, dialTimeout := 5000000000,
        idleTimeout := 60000000000, readTimeout := 5000000000,
        writeTimeout := 5000000000, input := none } (some ["B"]) = none ∧
    Options.currentTargets
      { initTargets := some ["A"], initCap := 1, maxCap := 1,
        timeoutType := IdleTimeoutType, dialTimeout := 5000000000,
        idleTimeout := 60000000000, readTimeout := 5000000000,
        writeTimeout := 5000000000, input := none } = ["A"] ∧
    Options.currentTargets
      { initTargets := some ["A"], initCap := 1, maxCap := 1,
        timeoutType := IdleTimeoutType, dialTimeout := 5000000000,
        idleTimeout := 60000000000, readTimeout := 5000000000,
        writeTimeout := 5000000000, input := some [some ["B"]] } = ["B"] ∧
    Options.currentTargets
      { initTargets := some ["A"], initCap := 1, maxCap := 1,
        timeoutType := IdleTimeoutType, dialTimeout := 5000000000,
        idleTimeout := 60000000000, readTimeout := 5000000000,
        writeTimeout := 5000000000, input := some [none] } = ["A"] := by
  refine ⟨rfl, rfl, rfl, rfl, rfl, rfl⟩

/-- C3 counterexample: a configuration with an empty (but non-nil)
target list and a negative dial timeout passes validation, because
the code tests `InitTargets == nil` (not emptiness) and
`DialTimeout == 0` (not non-positivity). -/
theorem C3_counterexample :
    Options.validate
      { initTargets := some [], initCap := 1, maxCap := 1,
        timeoutType := IdleTimeoutType, dialTimeout := -5000000000,
        idleTimeout := 0, readTimeout := 5000000000,
        writeTimeout := 5000000000, input := none } = none := by
  rfl

/-- C3 (amended): validation rejects exactly a nil target list,
`InitCap ≤ 0`, `MaxCap ≤ 0`, `InitCap > MaxCap`, an unrecognized
eviction policy, or a timeout exactly equal to zero; equivalently it
accepts everything else, including empty non-nil target lists and
negative timeouts. -/
theorem C3_validate_characterization :
    (∀ o : Options, Options.validate o = some Err.errInvalid ↔
      (o.initTargets = none ∨ o.initCap ≤ 0 ∨ o.maxCap ≤ 0 ∨
       o.initCap > o.maxCap ∨
       ¬(o.timeoutType = IdleTimeoutType ∨ o.timeoutType = FixedTimeoutType) ∨
       o.dialTimeout = 0 ∨ o.readTimeout = 0 ∨ o.writeTimeout = 0)) ∧
    (∀ o : Options, Options.validate o = none ↔
      ¬(o.initTargets = none ∨ o.initCap ≤ 0 ∨ o.maxCap ≤ 0 ∨
        o.initCap > o.maxCap ∨
        ¬(o.timeoutType = IdleTimeoutType ∨ o.timeoutType = FixedTimeoutType) ∨
        o.dialTimeout = 0 ∨ o.readTimeout = 0 ∨ o.writeTimeout = 0)) := by
  constructor <;> intro o <;> unfold Options.validate <;> split <;> simp_all <;> tauto

/-- C4: a configuration with `FixedTimeoutType` and `IdleTimeout = 0`
passes validation (the timeout-disabled case the spec allows), yet
`createGrpcIdleConn` evaluates `rand.Int63n(0)`, which panics, so pool
construction panics instead of succeeding; the expiry-skip half of the
claim does hold — with `IdleTimeout = 0` an arbitrarily old stored
entry is still returned by `Get`. -/
theorem C4_fixed_zero_idle_timeout_panics :
    Options.validate
      { initTargets := some ["A"], initCap := 2, maxCap := 3,
        timeoutType := FixedTimeoutType, dialTimeout := 5000000000,
        idleTimeout := 0, readTimeout := 5000000000,
        writeTimeout := 5000000000, input := none } = none ∧
    createGrpcIdleConn FixedTimeoutType 0 1000 0 7 = none ∧
    NewGRPCPool
      { initTargets := some ["A"], initCap := 2, maxCap := 3,
        timeoutType := FixedTimeoutType, dialTimeout := 5000000000,
        idleTimeout := 0, readTimeout := 5000000000,
        writeTimeout := 5000000000, input := none }
      dialOkFn (fun _ => 0) (fun _ => 0) 1000 crOkFn = none ∧
    (GRPCPool.Get
      { idleTimeout := 0, timeoutType := IdleTimeoutType, maxCap := 3,
        conns := some [{ conn := some 1, t := -1000000000000000 }],
        factoryAttached := true, closeAttached := true }
      crOkFn 1000 (.error .errTargets) 0).1
      = .ok { conn := some 1, t := -1000000000000000 } := by
  refine ⟨rfl, rfl, rfl, rfl⟩

/-- C8 counterexample: `Put` on a full store returns the close
callback's error to the caller (pool_grpc.go line 94 is
`return c.close(conn.Conn)`), so a close failure during
capacity-based eviction is escalated to the triggering `Release`,
which does not return success. -/
theorem C8_counterexample :
    (GRPCPool.Put
      { idleTimeout := 60000000000, timeoutType := IdleTimeoutType, maxCap := 1,
        conns := some [{ conn := some 1, t := 100 }],
        factoryAttached := true, closeAttached := true }
      crFailFn 100 (some { conn := some 2, t := 50 })).res
      = some (some (Err.collabErr 9)) := by
  rfl

/-- C9 counterexample: a configuration accepted by validation
(`FixedTimeoutType`, `IdleTimeout = 1ms`) with every dial succeeding
makes construction panic in `rand.Int63n` (the jitter bound
`IdleTimeout.Milliseconds()/2` is zero), so construction neither
stores `InitCap` connections nor propagates an error. -/
theorem C9_counterexample :
    Options.validate
      { initTargets := some ["A"], initCap := 1, maxCap := 1,
        timeoutType := FixedTimeoutType, dialTimeout := 5000000000,
        idleTimeout := 1000000, readTimeout := 5000000000,
        writeTimeout := 5000000000, input := none } = none ∧
    NewGRPCPool
      { initTargets := some ["A"], initCap := 1, maxCap := 1,
        timeoutType := FixedTimeoutType, dialTimeout := 5000000000,
        idleTimeout := 1000000, readTimeout := 5000000000,
        writeTimeout := 5000000000, input := none }
      dialOkFn (fun _ => 0) (fun _ => 0) 0 crOkFn = none := by
  refine ⟨rfl, rfl⟩

/-- Arithmetic of the jitter bound: a draw strictly below
`(d.Milliseconds) / 2`, converted back to nanoseconds, is strictly
below half of `d`. -/
lemma jitter_offset_lt_half (d r : Int) (hd : 0 < d) (hr0 : 0 ≤ r)
    (hrn : r < Int.tdiv (Duration.Milliseconds d) 2) :
    2 * (1000000 * r) < d := by
  unfold Duration.Milliseconds at hrn
  rw [Int.tdiv_eq_ediv (Int.tdiv_nonneg (le_of_lt hd) (by norm_num)) (by norm_num),
    Int.tdiv_eq_ediv (le_of_lt hd) (by norm_num)] at hrn
  omega

/-- C5: with a positive `IdleTimeout` and policy `FixedTimeoutType`,
every successfully created entry's timestamp is the creation instant
backdated by a whole-millisecond offset drawn from exactly the window
`[0, IdleTimeout.Milliseconds()/2)` milliseconds — every offset in
that window is realizable and every realizable offset lies in it — and
each such offset is nonnegative and strictly below `IdleTimeout/2`;
under `IdleTimeoutType` the timestamp is exactly the creation
instant. -/
theorem C5_jitter_window (d now : Int) (seed cid : Nat) (hd : 0 < d) :
    (∀ w, createGrpcIdleConn FixedTimeoutType d now seed cid = some w →
      w.conn = some cid ∧
      ∃ r : Int, 0 ≤ r ∧ r < Int.tdiv (Duration.Milliseconds d) 2 ∧
        w.t = now - 1000000 * r ∧ 0 ≤ now - w.t ∧ 2 * (now - w.t) < d) ∧
    (∀ r : Int, 0 ≤ r → r < Int.tdiv (Duration.Milliseconds d) 2 →
      ∃ s : Nat, createGrpcIdleConn FixedTimeoutType d now s cid
        = some { conn := some cid, t := now - 1000000 * r }) ∧
    createGrpcIdleConn IdleTimeoutType d now seed cid
      = some { conn := some cid, t := now } := by
  refine ⟨?_, ?_, ?_⟩
  · intro w hw
    rw [createGrpcIdleConn, if_pos rfl, randInt63n] at hw
    by_cases hn : Int.tdiv (Duration.Milliseconds d) 2 ≤ 0
    · rw [if_pos hn] at hw
      exact absurd hw (by simp)
    · rw [if_neg hn] at hw
      push_neg at hn
      rw [Option.some.injEq] at hw
      subst hw
      refine ⟨rfl, (seed : Int) % Int.tdiv (Duration.Milliseconds d) 2,
        Int.emod_nonneg _ (by omega), Int.emod_lt_of_pos _ hn, rfl, ?_, ?_⟩
      · have h0 : (0:Int) ≤ (seed : Int) % Int.tdiv (Duration.Milliseconds d) 2 :=
          Int.emod_nonneg _ (by omega)
        have h1 : (0:Int) ≤ 1000000 * ((seed : Int) % Int.tdiv (Duration.Milliseconds d) 2) := by
          positivity
        dsimp only
        omega
      · have h2 := jitter_offset_lt_half d ((seed : Int) % Int.tdiv (Duration.Milliseconds d) 2)
          hd (Int.emod_nonneg _ (by omega)) (Int.emod_lt_of_pos _ hn)
        dsimp only
        omega
  · intro r hr0 hrn
    refine ⟨r.toNat, ?_⟩
    rw [createGrpcIdleConn, if_pos rfl, randInt63n, if_neg (by omega)]
    have h1 : ((r.toNat : Int)) = r := Int.toNat_of_nonneg hr0
    rw [h1, Int.emod_eq_of_lt hr0 hrn]
  · rw [createGrpcIdleConn, if_neg (by decide)]

/-- C5 witness: the window facts instantiated at a 60 second idle
timeout. -/
theorem C5_jitter_window_witness :
    (0:Int) < 60000000000 ∧
    ((∀ w, createGrpcIdleConn FixedTimeoutType 60000000000 123 5 0 = some w →
      w.conn = some 0 ∧
      ∃ r : Int, 0 ≤ r ∧ r < Int.tdiv (Duration.Milliseconds 60000000000) 2 ∧
        w.t = 123 - 1000000 * r ∧ 0 ≤ 123 - w.t ∧ 2 * (123 - w.t) < 60000000000) ∧
    (∀ r : Int, 0 ≤ r → r < Int.tdiv (Duration.Milliseconds 60000000000) 2 →
      ∃ s : Nat, createGrpcIdleConn FixedTimeoutType 60000000000 123 s 0
        = some { conn := some 0, t := 123 - 1000000 * r }) ∧
    createGrpcIdleConn IdleTimeoutType 60000000000 123 5 0
      = some { conn := some 0, t := 123 }) :=
  ⟨by decide, C5_jitter_window 60000000000 123 5 0 (by decide)⟩

/-- C6: on an open pool with a positive `IdleTimeout`, a dequeued
entry is returned exactly when it is not expired
(`now − timestamp ≤ IdleTimeout`); an expired entry is closed (its
close is recorded) and never returned, `Get` continuing with the rest
of the store; and on an empty store `Get` dials — propagating the
factory error, or wrapping and returning the fresh connection. -/
theorem C6_get_expiry (p : GRPCPool) (cr : Nat → Option Err) (now : Int)
    (fr : Except Err Nat) (seed : Nat)
    (ht : 0 < p.idleTimeout) (hcl : p.closeAttached = true) :
    (∀ w rest cid, p.conns = some (w :: rest) → w.conn = some cid →
      (now - w.t ≤ p.idleTimeout →
        p.Get cr now fr seed = (.ok w, { p with conns := some rest }, [])) ∧
      (p.idleTimeout < now - w.t →
        p.Get cr now fr seed =
          ((({ p with conns := some rest } : GRPCPool).Get cr now fr seed).1,
           (({ p with conns := some rest } : GRPCPool).Get cr now fr seed).2.1,
           (cid, cr cid) ::
             (({ p with conns := some rest } : GRPCPool).Get cr now fr seed).2.2))) ∧
    (p.conns = some [] →
      (∀ e, fr = .error e → p.Get cr now fr seed = (.err e, p, [])) ∧
      (∀ cid w, fr = .ok cid →
        createGrpcIdleConn p.timeoutType p.idleTimeout now seed cid = some w →
        p.Get cr now fr seed = (.ok w, p, []))) := by
  constructor
  · intro w rest cid hc hw
    constructor
    · intro hfresh
      have hcond : ¬(0 < p.idleTimeout ∧ w.t + p.idleTimeout < now) := by omega
      simp only [GRPCPool.Get, hc, getLoop, hw]
      rw [if_neg hcond]
    · intro hexp
      have hcond : 0 < p.idleTimeout ∧ w.t + p.idleTimeout < now := ⟨ht, by omega⟩
      simp only [GRPCPool.Get, hc, getLoop, hw, hcl]
      rw [if_pos hcond]
      rcases hgl : getLoop p.idleTimeout p.timeoutType true cr now fr seed rest
        with ⟨o, q2, ev⟩
      simp [hgl, hcl]
  · intro hc
    constructor
    · intro e he
      simp only [GRPCPool.Get, hc, getLoop, he]
      rw [← hc]
    · intro cid w he hw
      simp only [GRPCPool.Get, hc, getLoop, he, hw]
      rw [← hc]

/-- Concrete pool for the C6 witness: one stored fresh entry. -/
def pC6 : GRPCPool :=
  { idleTimeout := 100, timeoutType := IdleTimeoutType, maxCap := 2,
    conns := some [{ conn := some 1, t := 50 }],
    factoryAttached := true, closeAttached := true }

/-- C6 witness: at `now = 100` the stored entry aged 50 ≤ 100 is
returned and removed from the store. -/
theorem C6_get_expiry_witness :
    (0:Int) < pC6.idleTimeout ∧ pC6.closeAttached = true ∧
    pC6.Get crOkFn 100 (.error .errTargets) 0
      = (.ok { conn := some 1, t := 50 }, { pC6 with conns := some [] }, []) :=
  ⟨by decide, rfl,
    ((C6_get_expiry pC6 crOkFn 100 (.error .errTargets) 0 (by decide) rfl).1
      { conn := some 1, t := 50 } [] 1 rfl rfl).1 (by decide)⟩

/-- The dequeue loop never lengthens the store: the remaining buffer
it reports is a suffix-after-removals of the input buffer. -/
lemma getLoop_length_le (it tt : Int) (ca : Bool) (cr : Nat → Option Err)
    (now : Int) (fr : Except Err Nat) (seed : Nat) :
    ∀ q : List GrpcIdleConn,
      (getLoop it tt ca cr now fr seed q).2.1.length ≤ q.length := by
  intro q
  induction q with
  | nil =>
    rcases fr with e | cid
    · simp [getLoop]
    · rcases h : createGrpcIdleConn tt it now seed cid with _ | w <;>
        simp [getLoop, h]
  | cons w rest ih =>
    rcases hw : w.conn with _ | cid
    · simp [getLoop, hw]
    · by_cases hcond : 0 < it ∧ w.t + it < now
      · rcases hgl : getLoop it tt ca cr now fr seed rest with ⟨o, q2, ev⟩
        simp only [getLoop, hw]
        rw [if_pos hcond]
        rw [hgl] at ih
        simp only [List.length_cons] at ih ⊢
        cases ca
        · simp
        · simp only [hgl] at ih ⊢
          simp at ih ⊢
          omega
      · simp only [getLoop, hw]
        rw [if_neg hcond]
        simp

/-- `Put` either leaves the pool state unchanged (reject, closed pool,
or capacity eviction) or appends one wrapper to a store that was
strictly below capacity. -/
lemma Put_pool_cases (p : GRPCPool) (cr : Nat → Option Err) (now : Int)
    (w : Option GrpcIdleConn) :
    (p.Put cr now w).pool = p ∨
    ∃ q x, p.conns = some q ∧ q.length < p.maxCap ∧
      (p.Put cr now w).pool = { p with conns := some (q ++ [x]) } := by
  unfold GRPCPool.Put
  rcases w with _ | conn
  · left; rfl
  · rcases hwc : conn.conn with _ | cid
    · simp [hwc]
    · rcases hc : p.conns with _ | q
      · simp only [hwc, hc]
        split <;> simp
      · simp only [hwc, hc]
        by_cases h1 : q.length < p.maxCap
        · right
          refine ⟨q,
            if p.timeoutType = IdleTimeoutType then { conn := some cid, t := now } else conn,
            rfl, h1, ?_⟩
          rw [if_pos h1]
        · rw [if_neg h1]
          split <;> simp

/-- Each operation preserves the capacity field and keeps the store
within capacity. -/
lemma applyOp_preserves (p : GRPCPool) (op : PoolOp) :
    (applyOp p op).maxCap = p.maxCap ∧
    (p.IdleCount ≤ p.maxCap → (applyOp p op).IdleCount ≤ p.maxCap) := by
  cases op with
  | get cr now fr seed =>
    rcases hc : p.conns with _ | q
    · simp [applyOp, GRPCPool.Get, hc]
    · rcases hgl : getLoop p.idleTimeout p.timeoutType p.closeAttached cr now fr seed q
        with ⟨o, q2, ev⟩
      have hlen := getLoop_length_le p.idleTimeout p.timeoutType p.closeAttached cr now fr seed q
      rw [hgl] at hlen
      simp only at hlen
      constructor
      · simp [applyOp, GRPCPool.Get, hc, hgl]
      · intro h
        simp only [applyOp, GRPCPool.Get, hc, hgl, GRPCPool.IdleCount] at h ⊢
        omega
  | put cr now w =>
    rcases Put_pool_cases p cr now w with h | ⟨q, x, hc, hlt, h⟩
    · constructor
      · simp [applyOp, h]
      · intro hb
        simpa [applyOp, h] using hb
    · constructor
      · simp [applyOp, h]
      · intro hb
        simp only [applyOp, h, GRPCPool.IdleCount]
        simp
        omega
  | close cr =>
    constructor
    · rcases hc : p.conns with _ | q <;> simp [applyOp, GRPCPool.Close, hc]
    · intro hb
      rcases hc : p.conns with _ | q <;>
        simp [applyOp, GRPCPool.Close, hc, GRPCPool.IdleCount]
  | idleCount =>
    exact ⟨rfl, fun h => h⟩

/-- Any operation sequence keeps the store within the construction
capacity. -/
lemma applyOps_bound : ∀ (ops : List PoolOp) (p : GRPCPool),
    p.IdleCount ≤ p.maxCap →
    (applyOps p ops).maxCap = p.maxCap ∧ (applyOps p ops).IdleCount ≤ p.maxCap := by
  intro ops
  induction ops with
  | nil => exact fun p h => ⟨rfl, h⟩
  | cons op ops ih =>
    intro p h
    have h1 := applyOp_preserves p op
    have hb : (applyOp p op).IdleCount ≤ (applyOp p op).maxCap := by
      rw [h1.1]; exact h1.2 h
    have h2 := ih (applyOp p op) hb
    unfold applyOps at h2 ⊢
    simp only [List.foldl_cons]
    exact ⟨by rw [h2.1, h1.1], by rw [← h1.1]; exact h2.2⟩

/-- C7: starting from any pool whose store is within `MaxCap`, no
sequence of operations ever pushes the idle store above `MaxCap`; and
`Put` on a store exactly at capacity returns the result of closing the
incoming connection, leaves the pool (hence `IdleCount`) unchanged,
and records the close. -/
theorem C7_bounded_store (p : GRPCPool) (ops : List PoolOp)
    (hb : p.IdleCount ≤ p.maxCap) :
    (applyOps p ops).IdleCount ≤ p.maxCap ∧
    (∀ (cr : Nat → Option Err) (now : Int) (w : GrpcIdleConn) (cid : Nat)
        (q : List GrpcIdleConn),
      p.conns = some q → q.length = p.maxCap → w.conn = some cid →
      p.closeAttached = true →
      (p.Put cr now (some w)).res = some (cr cid) ∧
      (p.Put cr now (some w)).pool = p ∧
      (p.Put cr now (some w)).closed = [(cid, cr cid)]) := by
  constructor
  · exact (applyOps_bound ops p hb).2
  · intro cr now w cid q hc hlen hw hca
    have hnlt : ¬ q.length < p.maxCap := by omega
    simp only [GRPCPool.Put, hw, hc]
    rw [if_neg hnlt, if_pos (by rw [hca])]
    exact ⟨rfl, rfl, rfl⟩

/-- Concrete pool for the C7 witness: store at capacity 1. -/
def pC7 : GRPCPool :=
  { idleTimeout := 0, timeoutType := IdleTimeoutType, maxCap := 1,
    conns := some [{ conn := some 3, t := 0 }],
    factoryAttached := true, closeAttached := true }

/-- C7 witness: a double `Put` sequence on a full one-slot pool keeps
the store at one entry, and the direct full-store `Put` facts hold. -/
theorem C7_bounded_store_witness :
    pC7.IdleCount ≤ pC7.maxCap ∧
    ((applyOps pC7
        [PoolOp.put crOkFn 0 (some { conn := some 4, t := 0 }),
         PoolOp.put crOkFn 0 (some { conn := some 5, t := 0 })]).IdleCount
      ≤ pC7.maxCap ∧
    (∀ (cr : Nat → Option Err) (now : Int) (w : GrpcIdleConn) (cid : Nat)
        (q : List GrpcIdleConn),
      pC7.conns = some q → q.length = pC7.maxCap → w.conn = some cid →
      pC7.closeAttached = true →
      (pC7.Put cr now (some w)).res = some (cr cid) ∧
      (pC7.Put cr now (some w)).pool = pC7 ∧
      (pC7.Put cr now (some w)).closed = [(cid, cr cid)])) :=
  ⟨by decide,
    C7_bounded_store pC7
      [PoolOp.put crOkFn 0 (some { conn := some 4, t := 0 }),
       PoolOp.put crOkFn 0 (some { conn := some 5, t := 0 })] (by decide)⟩

/-- The dequeue loop's outcome and remaining buffer do not depend on
the close callback's results (they are discarded at pool_grpc.go line
46); only the recorded eviction results differ. -/
lemma getLoop_close_indep (it tt : Int) (ca : Bool) (cr cr2 : Nat → Option Err)
    (now : Int) (fr : Except Err Nat) (seed : Nat) :
    ∀ q : List GrpcIdleConn,
      (getLoop it tt ca cr now fr seed q).1 = (getLoop it tt ca cr2 now fr seed q).1 ∧
      (getLoop it tt ca cr now fr seed q).2.1 = (getLoop it tt ca cr2 now fr seed q).2.1 := by
  intro q
  induction q with
  | nil => exact ⟨rfl, rfl⟩
  | cons w rest ih =>
    rcases hw : w.conn with _ | cid
    · simp [getLoop, hw]
    · by_cases hcond : 0 < it ∧ w.t + it < now
      · rcases hgl : getLoop it tt ca cr now fr seed rest with ⟨o, q2, ev⟩
        rcases hgl2 : getLoop it tt ca cr2 now fr seed rest with ⟨o2, q22, ev2⟩
        rw [hgl, hgl2] at ih
        simp only [getLoop, hw]
        rw [if_pos hcond, if_pos hcond]
        cases ca
        · simp
        · simp only [hgl, hgl2]
          simp at ih ⊢
          exact ⟨ih.1, ih.2⟩
      · simp only [getLoop, hw]
        rw [if_neg hcond, if_neg hcond]
        exact ⟨rfl, rfl⟩

/-- C8 (amended): a close failure during Acquire-side expiry eviction
is not escalated — `Get`'s outcome and its resulting store are
independent of the close results — but `Put` on a full store returns
the close callback's result to the caller, so a close failure there is
escalated as the `Release` error. -/
theorem C8_close_error_policy :
    (∀ (p : GRPCPool) (cr cr2 : Nat → Option Err) (now : Int)
        (fr : Except Err Nat) (seed : Nat),
      (p.Get cr now fr seed).1 = (p.Get cr2 now fr seed).1 ∧
      (p.Get cr now fr seed).2.1 = (p.Get cr2 now fr seed).2.1) ∧
    (∀ (p : GRPCPool) (cr : Nat → Option Err) (now : Int) (w : GrpcIdleConn)
        (cid : Nat) (q : List GrpcIdleConn),
      p.conns = some q → p.maxCap ≤ q.length → w.conn = some cid →
      p.closeAttached = true →
      (p.Put cr now (some w)).res = some (cr cid)) := by
  constructor
  · intro p cr cr2 now fr seed
    rcases hc : p.conns with _ | q
    · simp [GRPCPool.Get, hc]
    · have h := getLoop_close_indep p.idleTimeout p.timeoutType p.closeAttached
        cr cr2 now fr seed q
      rcases hgl : getLoop p.idleTimeout p.timeoutType p.closeAttached cr now fr seed q
        with ⟨o, q2, ev⟩
      rcases hgl2 : getLoop p.idleTimeout p.timeoutType p.closeAttached cr2 now fr seed q
        with ⟨o2, q22, ev2⟩
      rw [hgl, hgl2] at h
      simp only [GRPCPool.Get, hc, hgl, hgl2]
      simp at h ⊢
      exact ⟨h.1, h.2⟩
  · intro p cr now w cid q hc hlen hw hca
    have hnlt : ¬ q.length < p.maxCap := by omega
    simp only [GRPCPool.Put, hw, hc]
    rw [if_neg hnlt, if_pos (by rw [hca])]

/-- Concrete full pool for the C8 witness. -/
def pC8 : GRPCPool :=
  { idleTimeout := 60000000000, timeoutType := IdleTimeoutType, maxCap := 1,
    conns := some [{ conn := some 1, t := 0 }],
    factoryAttached := true, closeAttached := true }

/-- C8 witness: on the full pool `pC8`, `Put` with an always-failing
close callback returns exactly that close error. -/
theorem C8_close_error_policy_witness :
    pC8.conns = some [{ conn := some 1, t := 0 }] ∧
    pC8.maxCap ≤ 1 ∧
    (pC8.Put crFailFn 0 (some { conn := some 2, t := 5 })).res
      = some (crFailFn 2) :=
  ⟨rfl, by decide,
    C8_close_error_policy.2 pC8 crFailFn 0 { conn := some 2, t := 5 } 2
      [{ conn := some 1, t := 0 }] rfl (by decide) rfl rfl⟩

/-- When the policy is `IdleTimeoutType`, or the jitter bound is
positive, wrapper creation cannot panic and always carries the given
handle. -/
lemma createGrpcIdleConn_total (tt it now : Int) (seed cid : Nat)
    (h : tt = IdleTimeoutType ∨ 0 < Int.tdiv (Duration.Milliseconds it) 2) :
    ∃ t, createGrpcIdleConn tt it now seed cid = some { conn := some cid, t := t } := by
  unfold createGrpcIdleConn randInt63n
  by_cases htt : tt = FixedTimeoutType
  · rcases h with h | h
    · exfalso
      rw [htt] at h
      exact absurd h (by decide)
    · rw [if_pos htt, if_neg (by omega)]
      exact ⟨_, rfl⟩
  · rw [if_neg htt]
    exact ⟨_, rfl⟩

/-- If every factory call in range succeeds and wrapper creation
cannot panic, the construction loop stores one wrapper per iteration
and closes nothing. -/
lemma initLoop_all_ok (fac : Nat → Except Err Nat)
    (mk : Nat → Nat → Option GrpcIdleConn) (cr : Nat → Option Err)
    (hmk : ∀ i cid, ∃ w, mk i cid = some w) :
    ∀ (fuel start : Nat) (acc : List GrpcIdleConn),
      (∀ i, i < fuel → ∃ c, fac (start + i) = .ok c) →
      ∃ ws, initLoop fac mk cr start fuel acc = some (.ok (acc ++ ws), []) ∧
        ws.length = fuel := by
  intro fuel
  induction fuel with
  | zero =>
    intro start acc _
    exact ⟨[], by simp [initLoop], rfl⟩
  | succ n ih =>
    intro start acc h
    obtain ⟨c, hc⟩ := h 0 (by omega)
    obtain ⟨w, hwk⟩ := hmk start c
    obtain ⟨ws, hws, hlen⟩ := ih (start + 1) (acc ++ [w]) (fun i hi => by
      have heq : start + 1 + i = start + (i + 1) := by omega
      rw [heq]
      exact h (i + 1) (by omega))
    refine ⟨w :: ws, ?_, by simp [hlen]⟩
    have hc0 : fac start = .ok c := hc
    unfold initLoop
    simp only [hc0, hwk, hws]
    simp

/-- If the first factory failure happens at iteration `j` (all earlier
iterations succeed with handles `cids`), the construction loop aborts
with that error and closes exactly the `j` wrappers created so far,
after the entries already accumulated. -/
lemma initLoop_first_err (fac : Nat → Except Err Nat)
    (mk : Nat → Nat → Option GrpcIdleConn) (cr : Nat → Option Err)
    (cids : Nat → Nat)
    (hmk : ∀ i cid, ∃ t, mk i cid = some { conn := some cid, t := t }) :
    ∀ (j start fuel : Nat) (acc : List GrpcIdleConn) (e : Err),
      j < fuel →
      (∀ i, i < j → fac (start + i) = .ok (cids (start + i))) →
      fac (start + j) = .error e →
      initLoop fac mk cr start fuel acc =
        some (.error e,
          (acc.filterMap fun w => w.conn.map fun cid => (cid, cr cid)) ++
            (List.range j).map fun i =>
              (cids (start + i), cr (cids (start + i)))) := by
  intro j
  induction j with
  | zero =>
    intro start fuel acc e hj _ herr
    rcases fuel with _ | n
    · omega
    have herr0 : fac start = .error e := herr
    unfold initLoop
    simp only [herr0]
    simp
  | succ m ih =>
    intro start fuel acc e hj hok herr
    rcases fuel with _ | n
    · omega
    have hc : fac start = .ok (cids start) := by
      have h0 := hok 0 (by omega)
      simpa using h0
    obtain ⟨t, hmk1⟩ := hmk start (cids start)
    have hrec := ih (start + 1) n (acc ++ [{ conn := some (cids start), t := t }]) e
      (by omega)
      (fun i hi => by
        have heq : start + 1 + i = start + (i + 1) := by omega
        rw [heq]
        exact hok (i + 1) (by omega))
      (by
        have heq : start + 1 + m = start + (m + 1) := by omega
        rw [heq]
        exact herr)
    unfold initLoop
    simp only [hc, hmk1, hrec]
    have hmaps : (List.range m).map
          (fun i => (cids (start + 1 + i), cr (cids (start + 1 + i))))
        = (List.range m).map
          (fun i => (cids (start + (i + 1)), cr (cids (start + (i + 1))))) := by
      apply List.map_congr_left
      intro i _
      have heq : start + 1 + i = start + (i + 1) := by omega
      rw [heq]
    rw [hmaps, List.filterMap_append, List.range_succ_eq_map]
    simp [List.map_map, Function.comp, List.append_assoc]

/-- C9 (amended): for a configuration accepted by validation whose
wrapper timestamping cannot panic (`IdleTimeoutType`, or
`FixedTimeoutType` with a positive jitter bound), construction
synchronously creates exactly `InitCap` connections — `IdleCount`
right after construction equals `InitCap` and nothing is closed — and
if the `j`-th creation is the first to fail, construction aborts,
closes exactly the `j` wrappers created so far, propagates the error,
and produces no pool. -/
theorem C9_construction (o : Options) (dial : Nat → String → Except Err Nat)
    (randIdxs seeds : Nat → Nat) (now : Int) (cr : Nat → Option Err)
    (hv : Options.validate o = none)
    (hjit : o.timeoutType = IdleTimeoutType ∨
      0 < Int.tdiv (Duration.Milliseconds o.idleTimeout) 2) :
    (∀ cids : Nat → Nat,
      (∀ i, i < o.initCap.toNat →
        factoryStep (o.initTargets.getD []) dial randIdxs i = .ok (cids i)) →
      ∃ p : GRPCPool,
        NewGRPCPool o dial randIdxs seeds now cr = some (.ok p, []) ∧
        p.IdleCount = o.initCap.toNat ∧ 0 < o.initCap ∧ p.conns ≠ none) ∧
    (∀ (cids : Nat → Nat) (j : Nat) (e : Err),
      j < o.initCap.toNat →
      (∀ i, i < j →
        factoryStep (o.initTargets.getD []) dial randIdxs i = .ok (cids i)) →
      factoryStep (o.initTargets.getD []) dial randIdxs j = .error e →
      NewGRPCPool o dial randIdxs seeds now cr =
        some (.error e, (List.range j).map fun i => (cids i, cr (cids i)))) := by
  have hcap : 0 < o.initCap := by
    unfold Options.validate at hv
    split at hv
    · exact absurd hv (by simp)
    · rename_i h
      push_neg at h
      obtain ⟨h1, h2, h3, h4, h5, h6, h7, h8⟩ := h
      omega
  have hmk : ∀ i cid, ∃ t,
      createGrpcIdleConn o.timeoutType o.idleTimeout now (seeds i) cid
        = some { conn := some cid, t := t } :=
    fun i cid => createGrpcIdleConn_total o.timeoutType o.idleTimeout now (seeds i) cid hjit
  constructor
  · intro cids hok
    obtain ⟨ws, hws, hlen⟩ := initLoop_all_ok
      (factoryStep (o.initTargets.getD []) dial randIdxs)
      (fun i cid => createGrpcIdleConn o.timeoutType o.idleTimeout now (seeds i) cid) cr
      (fun i cid => (hmk i cid).elim fun t ht => ⟨{ conn := some cid, t := t }, ht⟩)
      o.initCap.toNat 0 []
      (fun i hi => ⟨cids i, by simpa using hok i hi⟩)
    refine ⟨{ idleTimeout := o.idleTimeout, timeoutType := o.timeoutType,
              maxCap := o.maxCap.toNat, conns := some ws,
              factoryAttached := true, closeAttached := true }, ?_, ?_, hcap, by simp⟩
    · unfold NewGRPCPool
      simp only [hv, hws]
      simp
    · simp [GRPCPool.IdleCount, hlen]
  · intro cids j e hj hok herr
    have hrun := initLoop_first_err
      (factoryStep (o.initTargets.getD []) dial randIdxs)
      (fun i cid => createGrpcIdleConn o.timeoutType o.idleTimeout now (seeds i) cid) cr
      cids hmk j 0 o.initCap.toNat [] e hj
      (fun i hi => by simpa using hok i hi)
      (by simpa using herr)
    unfold NewGRPCPool
    simp only [hv, hrun]
    simp

/-- Valid two-connection configuration for the C9 witness. -/
def o9w : Options :=
  { initTargets := some ["A"], initCap := 2, maxCap := 2,
    timeoutType := IdleTimeoutType, dialTimeout := 5000000000,
    idleTimeout := 60000000000, readTimeout := 5000000000,
    writeTimeout := 5000000000, input := none }

/-- C9 witness: with every dial succeeding, construction on `o9w`
yields a pool whose idle count is `InitCap = 2`. -/
theorem C9_construction_witness :
    Options.validate o9w = none ∧
    ∃ p : GRPCPool,
      NewGRPCPool o9w dialOkFn (fun _ => 0) (fun _ => 0) 0 crOkFn
        = some (.ok p, []) ∧
      p.IdleCount = o9w.initCap.toNat ∧ 0 < o9w.initCap ∧ p.conns ≠ none :=
  ⟨by decide,
    (C9_construction o9w dialOkFn (fun _ => 0) (fun _ => 0) 0 crOkFn (by decide)
      (Or.inl rfl)).1 (fun i => i) (fun i _ => rfl)⟩

/-- C10: `Put` performs no identity or double-release check — on an
open pool with at least two free slots, releasing the same non-nil
wrapper twice succeeds both times, grows `IdleCount` by exactly 2, and
stores the same wrapper value in two store slots. -/
theorem C10_double_release (p : GRPCPool) (cr : Nat → Option Err) (now : Int)
    (w : GrpcIdleConn) (cid : Nat) (q : List GrpcIdleConn)
    (hc : p.conns = some q) (hlen : q.length + 2 ≤ p.maxCap)
    (hw : w.conn = some cid) :
    ∃ w2 : GrpcIdleConn, w2.conn = some cid ∧
      (p.Put cr now (some w)).res = some none ∧
      ((p.Put cr now (some w)).pool.Put cr now (some w)).res = some none ∧
      ((p.Put cr now (some w)).pool.Put cr now (some w)).pool.IdleCount
        = p.IdleCount + 2 ∧
      ((p.Put cr now (some w)).pool.Put cr now (some w)).pool.conns
        = some (q ++ [w2, w2]) := by
  have h1lt : q.length < p.maxCap := by omega
  have e1 : p.Put cr now (some w)
      = ⟨some none,
         { p with conns := some (q ++
            [if p.timeoutType = IdleTimeoutType then { conn := some cid, t := now } else w]) },
         []⟩ := by
    simp only [GRPCPool.Put, hw, hc]
    rw [if_pos h1lt]
  have h2lt : (q ++
      [if p.timeoutType = IdleTimeoutType then { conn := some cid, t := now } else w]).length
      < p.maxCap := by
    simp only [List.length_append, List.length_singleton]
    omega
  have e2 : ({ p with conns := some (q ++
        [if p.timeoutType = IdleTimeoutType then { conn := some cid, t := now } else w]) }
        : GRPCPool).Put cr now (some w)
      = ⟨some none,
         { p with conns := some ((q ++
            [if p.timeoutType = IdleTimeoutType then { conn := some cid, t := now } else w]) ++
            [if p.timeoutType = IdleTimeoutType then { conn := some cid, t := now } else w]) },
         []⟩ := by
    simp only [GRPCPool.Put, hw]
    rw [if_pos h2lt]
  refine ⟨if p.timeoutType = IdleTimeoutType then { conn := some cid, t := now } else w,
    ?_, ?_, ?_, ?_, ?_⟩
  · by_cases htt : p.timeoutType = IdleTimeoutType <;> simp [htt, hw]
  · rw [e1]
  · rw [e1]
    dsimp only
    rw [e2]
  · rw [e1]
    dsimp only
    rw [e2]
    simp [GRPCPool.IdleCount, hc]
  · rw [e1]
    dsimp only
    rw [e2]
    simp [List.append_assoc]

/-- Two-slot empty pool for the C10 witness. -/
def pC10 : GRPCPool :=
  { idleTimeout := 60000000000, timeoutType := IdleTimeoutType, maxCap := 2,
    conns := some [], factoryAttached := true, closeAttached := true }

/-- C10 witness: the same wrapper put twice into the empty two-slot
pool is stored twice. -/
theorem C10_double_release_witness :
    pC10.conns = some [] ∧ 0 + 2 ≤ pC10.maxCap ∧
    (∃ w2 : GrpcIdleConn, w2.conn = some 5 ∧
      (pC10.Put crOkFn 9 (some { conn := some 5, t := 77 })).res = some none ∧
      ((pC10.Put crOkFn 9 (some { conn := some 5, t := 77 })).pool.Put
          crOkFn 9 (some { conn := some 5, t := 77 })).res = some none ∧
      ((pC10.Put crOkFn 9 (some { conn := some 5, t := 77 })).pool.Put
          crOkFn 9 (some { conn := some 5, t := 77 })).pool.IdleCount
        = pC10.IdleCount + 2 ∧
      ((pC10.Put crOkFn 9 (some { conn := some 5, t := 77 })).pool.Put
          crOkFn 9 (some { conn := some 5, t := 77 })).pool.conns
        = some ([] ++ [w2, w2])) :=
  ⟨rfl, by decide,
    C10_double_release pC10 crOkFn 9 { conn := some 5, t := 77 } 5 [] rfl (by decide) rfl⟩
